import Mathlib

/-!
Verification of the judge backend service: a shallow embedding of the
JSON-recovery and normalization routine (`src/feature/judge/service.py`),
the call-and-retry orchestration, the evidence-file validator, and the
user upsert endpoints, together with theorems settling the specified
properties.

Python strings are modelled as Lean `String`/`List Char`; Python `dict`
objects recovered from JSON are association lists built with last-write-wins
insertion (matching `dict` construction); machine-level concerns (floats are
kept as their source lexemes, since the service only ever converts them with
`str(...)` and tests their truthiness), and effects (backend calls, file
reads/closes, the database session) are modelled by explicit state passing.
-/

/-- The left-brace character, kept as a named constant. -/
def lbrace : Char := Char.ofNat 123

/-- The right-brace character, kept as a named constant. -/
def rbrace : Char := Char.ofNat 125

/-- A numeric JSON value as Python's `json` module produces it: an exact
`int` when the lexeme has neither fraction nor exponent, otherwise a float.
Floats are kept as their source lexeme (plus the constants `nan`, `inf`,
`-inf` for Python's `NaN`/`Infinity`/`-Infinity`): the service never does
arithmetic on them — it only applies `str(...)` and truthiness tests, and
the exact float-repr normalization Python would perform is irrelevant to
every property proved below (only non-emptiness and zero-ness are used). -/
inductive JNum where
  | int (n : Int)
  | big (lexeme : String)
deriving DecidableEq, Repr

/-- A JSON value as decoded by Python's `json.JSONDecoder`. -/
inductive Json where
  | null
  | bool (b : Bool)
  | num (n : JNum)
  | str (s : String)
  | arr (elems : List Json)
  | obj (members : List (String × Json))
deriving Repr

/-- A decoded JSON object (Python `dict[str, Any]`): key/value pairs in
insertion order, keys unique by construction (`insert_kv`). -/
abbrev JObj := List (String × Json)

/-- Python `dict` assignment `d[k] = v`: update the value in place if the
key exists (keeping its position), otherwise append. -/
def insert_kv (kvs : JObj) (k : String) (v : Json) : JObj :=
  if kvs.any (fun p => p.1 == k) then
    kvs.map (fun p => if p.1 == k then (k, v) else p)
  else kvs ++ [(k, v)]

/-- Python `dict.get`: the value at a key, if present. -/
def obj_get (kvs : JObj) (k : String) : Option Json :=
  (kvs.find? (fun p => p.1 == k)).map (fun p => p.2)

/-- The whitespace characters skipped by Python's JSON decoder
(`WHITESPACE = [ \t\n\r]*`). -/
def is_json_ws (c : Char) : Bool :=
  c.toNat = 32 || c.toNat = 9 || c.toNat = 10 || c.toNat = 13

/-- Skip JSON whitespace. -/
def skip_ws (cs : List Char) : List Char := cs.dropWhile is_json_ws

/-- Test for a literal keyword at the head of the input. -/
def starts_with (cs : List Char) (lit : List Char) : Bool := lit.isPrefixOf cs

/-- Value of a hex digit, if the character is one. -/
def hex_val (c : Char) : Option Nat :=
  if c.isDigit then some (c.toNat - 48)
  else if 97 ≤ c.toNat && c.toNat ≤ 102 then some (c.toNat - 87)
  else if 65 ≤ c.toNat && c.toNat ≤ 70 then some (c.toNat - 55)
  else none

/-- Combine four hex digits into a code unit. -/
def hex4 (a b c d : Char) : Option Nat :=
  match hex_val a, hex_val b, hex_val c, hex_val d with
  | some va, some vb, some vc, some vd => some (((va * 16 + vb) * 16 + vc) * 16 + vd)
  | _, _, _, _ => none

/-- Body of a JSON string after the opening quote, per Python's strict
`scanstring`: plain characters up to the closing quote, the escapes
`\" \\ \/ \b \f \n \r \t \uXXXX` (with surrogate-pair combination), and a
hard error on unescaped control characters or invalid escapes. Python keeps
a lone surrogate as-is in the resulting `str`; Lean's `Char` cannot hold a
surrogate, so a lone surrogate becomes U+FFFD — no property below depends
on this corner. Recursion is on a fuel that callers seed with the input
length (each step consumes at least one character). -/
def parse_string_body : Nat → List Char → List Char → Option (String × List Char)
  | 0, _, _ => none
  | _ + 1, _, [] => none
  | fuel + 1, acc, c :: rest =>
    if c == '"' then some (String.mk acc.reverse, rest)
    else if c == '\\' then
      match rest with
      | 'u' :: a :: b :: c1 :: d :: rest2 =>
        match hex4 a b c1 d with
        | none => none
        | some code =>
          if 55296 ≤ code && code ≤ 56319 then
            match rest2 with
            | '\\' :: 'u' :: a2 :: b2 :: c2 :: d2 :: rest3 =>
              match hex4 a2 b2 c2 d2 with
              | some code2 =>
                if 56320 ≤ code2 && code2 ≤ 57343 then
                  parse_string_body fuel
                    (Char.ofNat ((code - 55296) * 1024 + (code2 - 56320) + 65536) :: acc)
                    rest3
                else parse_string_body fuel (Char.ofNat 0xFFFD :: acc) rest2
              | none => parse_string_body fuel (Char.ofNat 0xFFFD :: acc) rest2
            | _ => parse_string_body fuel (Char.ofNat 0xFFFD :: acc) rest2
          else if 56320 ≤ code && code ≤ 57343 then
            parse_string_body fuel (Char.ofNat 0xFFFD :: acc) rest2
          else parse_string_body fuel (Char.ofNat code :: acc) rest2
      | e :: rest2 =>
        if e == '"' then parse_string_body fuel ('"' :: acc) rest2
        else if e == '\\' then parse_string_body fuel ('\\' :: acc) rest2
        else if e == '/' then parse_string_body fuel ('/' :: acc) rest2
        else if e == 'b' then parse_string_body fuel (Char.ofNat 8 :: acc) rest2
        else if e == 'f' then parse_string_body fuel (Char.ofNat 12 :: acc) rest2
        else if e == 'n' then parse_string_body fuel ('\n' :: acc) rest2
        else if e == 'r' then parse_string_body fuel ('\r' :: acc) rest2
        else if e == 't' then parse_string_body fuel ('\t' :: acc) rest2
        else none
      | [] => none
    else if c.toNat < 0x20 then none
    else parse_string_body fuel (c :: acc) rest

/-- Natural number denoted by a run of decimal digits. -/
def digits_to_nat (ds : List Char) : Nat :=
  ds.foldl (fun sofar d => 10 * sofar + (d.toNat - 48)) 0

/-- Exponent part of a number per Python's `NUMBER_RE` (`[eE][-+]?\d+`),
returning the consumed lexeme characters and the rest; nothing is consumed
when the exponent group does not match (regex groups are optional). -/
def parse_exp (cs : List Char) : List Char × List Char :=
  match cs with
  | c :: rest =>
    if c == 'e' || c == 'E' then
      match rest with
      | s :: rest2 =>
        if s == '+' || s == '-' then
          let ds := rest2.takeWhile Char.isDigit
          if ds.isEmpty then ([], cs) else (c :: s :: ds, rest2.drop ds.length)
        else
          let ds := rest.takeWhile Char.isDigit
          if ds.isEmpty then ([], cs) else (c :: ds, rest.drop ds.length)
      | [] => ([], cs)
    else ([], cs)
  | [] => ([], cs)

/-- Fraction and exponent tail of a number, given the sign and integer
digits already matched; yields an exact `int` when both are absent, per
Python's scanner. -/
def finish_number (neg : Bool) (intDigits : List Char) (cs : List Char) :
    Option (Json × List Char) :=
  let fracStep : List Char × List Char :=
    match cs with
    | c :: rest =>
      if c == '.' then
        let ds := rest.takeWhile Char.isDigit
        if ds.isEmpty then ([], cs) else ('.' :: ds, rest.drop ds.length)
      else ([], cs)
    | [] => ([], cs)
  let fracDigits := fracStep.1
  let cs2 := fracStep.2
  let expStep := parse_exp cs2
  let expPart := expStep.1
  let cs3 := expStep.2
  if fracDigits.isEmpty && expPart.isEmpty then
    let n : Nat := digits_to_nat intDigits
    some (Json.num (JNum.int (if neg then -(n : Int) else (n : Int))), cs3)
  else
    let lex := (if neg then ['-'] else []) ++ intDigits ++ fracDigits ++ expPart
    some (Json.num (JNum.big (String.mk lex)), cs3)

/-- A JSON number at the head of the input, per Python's `NUMBER_RE`
(`(-?(?:0|[1-9]\d*))(\.\d+)?([eE][-+]?\d+)?`): optional minus, an integer
part with no leading zeros, optional fraction, optional exponent. The match
is maximal in the regex sense — e.g. on `01` only `0` is consumed. -/
def parse_number (cs : List Char) : Option (Json × List Char) :=
  let signStep : Bool × List Char :=
    match cs with
    | c :: rest => if c == '-' then (true, rest) else (false, cs)
    | [] => (false, cs)
  let neg := signStep.1
  match signStep.2 with
  | c :: rest =>
    if c == '0' then finish_number neg ['0'] rest
    else if c.isDigit then
      let ds := rest.takeWhile Char.isDigit
      finish_number neg (c :: ds) (rest.drop ds.length)
    else none
  | [] => none

/-- Mode of the JSON scanner: which production is being parsed. The
object/array member loops carry their accumulated members, mirroring the
loops inside Python's `JSONObject`/`JSONArray`. -/
inductive PMode where
  | val
  | objStart
  | members (acc : JObj)
  | arrStart
  | items (acc : List Json)

/-- One scanner, structurally recursive on fuel, covering Python's
`scan_once` (`PMode.val`), `JSONObject` (`objStart`/`members`) and
`JSONArray` (`arrStart`/`items`). `val` does not skip leading whitespace
(`raw_decode` does not); whitespace between tokens is skipped exactly where
Python's decoder does. Keyword order matches the scanner: string, object,
array, `null`/`true`/`false`, number regex, then `NaN`/`Infinity`/
`-Infinity`. -/
def parse_step : Nat → PMode → List Char → Option (Json × List Char)
  | 0, _, _ => none
  | fuel + 1, PMode.val, cs =>
    match cs with
    | [] => none
    | c :: rest =>
      if c == '"' then
        match parse_string_body (rest.length + 1) [] rest with
        | some (s, cs2) => some (Json.str s, cs2)
        | none => none
      else if c == lbrace then parse_step fuel PMode.objStart rest
      else if c == '[' then parse_step fuel PMode.arrStart rest
      else if starts_with cs ['n', 'u', 'l', 'l'] then some (Json.null, cs.drop 4)
      else if starts_with cs ['t', 'r', 'u', 'e'] then some (Json.bool true, cs.drop 4)
      else if starts_with cs ['f', 'a', 'l', 's', 'e'] then some (Json.bool false, cs.drop 5)
      else
        match parse_number cs with
        | some r => some r
        | none =>
          if starts_with cs ['N', 'a', 'N'] then
            some (Json.num (JNum.big "nan"), cs.drop 3)
          else if starts_with cs ['I', 'n', 'f', 'i', 'n', 'i', 't', 'y'] then
            some (Json.num (JNum.big "inf"), cs.drop 8)
          else if starts_with cs ['-', 'I', 'n', 'f', 'i', 'n', 'i', 't', 'y'] then
            some (Json.num (JNum.big "-inf"), cs.drop 9)
          else none
  | fuel + 1, PMode.objStart, cs =>
    match skip_ws cs with
    | [] => none
    | c :: rest =>
      if c == rbrace then some (Json.obj [], rest)
      else parse_step fuel (PMode.members []) (c :: rest)
  | fuel + 1, PMode.members acc, cs =>
    match cs with
    | [] => none
    | c :: rest =>
      if c == '"' then
        match parse_string_body (rest.length + 1) [] rest with
        | none => none
        | some (key, cs2) =>
          match skip_ws cs2 with
          | [] => none
          | c2 :: cs3 =>
            if c2 == ':' then
              match parse_step fuel PMode.val (skip_ws cs3) with
              | none => none
              | some (v, cs4) =>
                let acc2 := insert_kv acc key v
                match skip_ws cs4 with
                | [] => none
                | c3 :: cs5 =>
                  if c3 == ',' then parse_step fuel (PMode.members acc2) (skip_ws cs5)
                  else if c3 == rbrace then some (Json.obj acc2, cs5)
                  else none
            else none
      else none
  | fuel + 1, PMode.arrStart, cs =>
    match skip_ws cs with
    | [] => none
    | c :: rest =>
      if c == ']' then some (Json.arr [], rest)
      else parse_step fuel (PMode.items []) (c :: rest)
  | fuel + 1, PMode.items acc, cs =>
    match parse_step fuel PMode.val cs with
    | none => none
    | some (v, cs2) =>
      match skip_ws cs2 with
      | [] => none
      | c :: cs3 =>
        if c == ',' then parse_step fuel (PMode.items (acc ++ [v])) (skip_ws cs3)
        else if c == ']' then some (Json.arr (acc ++ [v]), cs3)
        else none

/-- Fuel that is always sufficient for `parse_step` on the given input:
every recursive call either consumes a character first or switches mode at
most twice per character consumed. -/
def parse_fuel (cs : List Char) : Nat := 3 * cs.length + 8

/-- Python `json.JSONDecoder().raw_decode(text)`: decode one JSON value
starting at the very beginning of the text (no leading whitespace allowed),
returning the value and the unconsumed tail, ignoring trailing garbage. -/
def raw_decode (cs : List Char) : Option (Json × List Char) :=
  parse_step (parse_fuel cs) PMode.val cs

/-- Python `json.loads(text)`: skip leading whitespace, decode one value,
and require that only whitespace remains. -/
def json_loads (s : String) : Option Json :=
  let cs := skip_ws s.toList
  match raw_decode cs with
  | some (v, rest) => if skip_ws rest = [] then some v else none
  | none => none

/-- A single-quote character as a string (used when rendering Python reprs). -/
def squote : String := String.mk [Char.ofNat 39]

/-- True when a float lexeme denotes zero: every mantissa digit is `0`
(`0.0`, `-0.00e17`, ...). The constants `nan`/`inf`/`-inf` are nonzero. -/
def big_is_zero (lex : String) : Bool :=
  if lex == "nan" || lex == "inf" || lex == "-inf" then false
  else
    (lex.toList.takeWhile (fun c => !(c == 'e' || c == 'E'))).all
      (fun c => !c.isDigit || c == '0')

/-- Python truthiness (`bool(x)`) of a decoded JSON value: `None`/`False`,
zero numbers, and empty strings/lists/dicts are falsy. -/
def py_truthy : Json → Bool
  | Json.null => false
  | Json.bool b => b
  | Json.num (JNum.int n) => !(n == 0)
  | Json.num (JNum.big lex) => !(big_is_zero lex)
  | Json.str s => !(s == "")
  | Json.arr xs => !xs.isEmpty
  | Json.obj kvs => !kvs.isEmpty

mutual

/-- Python `repr(x)` of a decoded JSON value, as used inside container
renderings. Floats render as their source lexeme (Python would print the
normalized float repr; every float repr is non-empty, which is all any
property below uses) and strings are quoted without re-escaping — again
only non-emptiness of these renderings ever matters downstream. -/
def py_repr : Json → String
  | Json.null => "None"
  | Json.bool true => "True"
  | Json.bool false => "False"
  | Json.num (JNum.int n) => toString n
  | Json.num (JNum.big lex) => lex
  | Json.str s => squote ++ s ++ squote
  | Json.arr xs => "[" ++ py_repr_list xs ++ "]"
  | Json.obj kvs => String.mk [lbrace] ++ py_repr_obj kvs ++ String.mk [rbrace]

/-- Comma-separated reprs of array elements. -/
def py_repr_list : List Json → String
  | [] => ""
  | [x] => py_repr x
  | x :: y :: xs => py_repr x ++ ", " ++ py_repr_list (y :: xs)

/-- Comma-separated `key: value` reprs of dict members. -/
def py_repr_obj : List (String × Json) → String
  | [] => ""
  | [kv] => squote ++ kv.1 ++ squote ++ ": " ++ py_repr kv.2
  | kv :: kv2 :: kvs =>
    squote ++ kv.1 ++ squote ++ ": " ++ py_repr kv.2 ++ ", " ++ py_repr_obj (kv2 :: kvs)

end

/-- Python `str(x)` on a decoded JSON value: the value itself for a string,
its repr-style rendering otherwise. -/
def py_str (v : Json) : String :=
  match v with
  | Json.str s => s
  | v => py_repr v

/-- The characters removed by Python's `str.strip()` with no argument
(ASCII whitespace; Python also strips the rarer Unicode space classes,
which never occur in any string this development reasons about). -/
def is_py_space (c : Char) : Bool :=
  c.toNat = 32 || (9 ≤ c.toNat && c.toNat ≤ 13)

/-- Python `str.strip()` on a character list. -/
def py_strip_list (cs : List Char) : List Char :=
  ((cs.dropWhile is_py_space).reverse.dropWhile is_py_space).reverse

/-- Python `str.strip()`. -/
def py_strip (s : String) : String := String.mk (py_strip_list s.toList)

/-- Python `str.lower()` restricted to ASCII (the lookup tables below only
contain ASCII letters and Korean, which `lower()` leaves unchanged). -/
def ascii_lower (s : String) : String := String.mk (s.toList.map Char.toLower)

/-- Contiguous-sublist test, Boolean-valued. -/
def infix_of_b (needle hay : List Char) : Bool :=
  needle.isPrefixOf hay ||
    (match hay with
     | [] => false
     | _ :: t => infix_of_b needle t)

/-- Python `needle in hay` on strings: contiguous substring test. -/
def py_in (needle hay : String) : Bool := infix_of_b needle.toList hay.toList

/-- `SUMMARY_MAX_CHARS` from the service module. -/
def SUMMARY_MAX_CHARS : Nat := 140

/-- `_short_story`: the trimmed story truncated to 140 characters with an
ellipsis marker, or a fixed message when the story is empty. -/
def short_story (story : String) : String :=
  let normalized := py_strip story
  if normalized = "" then "입력된 사연이 없습니다."
  else
    normalized.take SUMMARY_MAX_CHARS ++
      (if normalized.length > SUMMARY_MAX_CHARS then "..." else "")

/-- `_safe_json_loads`: strict whole-string parse, accepted only when the
value is an object. -/
def safe_json_loads (text : String) : Option JObj :=
  match json_loads text with
  | some (Json.obj o) => some o
  | _ => none

/-- The scanning loop of `_extract_json` over the list of characters: at
each position holding a left brace, attempt `raw_decode` on the suffix; on
a decode error, or a decoded non-dict, continue with the next position;
return the first decoded dict. -/
def extract_json_list : List Char → Option JObj
  | [] => none
  | c :: rest =>
    if c == lbrace then
      match raw_decode (c :: rest) with
      | some (Json.obj o, _) => some o
      | some _ => extract_json_list rest
      | none => extract_json_list rest
    else extract_json_list rest

/-- `_extract_json`: recover the first JSON object embedded anywhere in the
text, ignoring whatever follows it. -/
def extract_json (text : String) : Option JObj := extract_json_list text.toList

/-- The lookup chain of `_normalize_severity` applied to the already
trimmed-and-lowercased key. -/
def severity_of_key (normalized : String) : String :=
  if normalized ∈ ["경미", "low", "minor"] then "경미"
  else if normalized ∈ ["중간", "medium", "moderate"] then "중간"
  else if normalized ∈ ["중대", "high", "major", "severe", "critical"] then "중대"
  else if normalized ∈ ["낮음", "경미함", "가벼움"] then "경미"
  else if normalized ∈ ["보통", "중간정도"] then "중간"
  else if normalized ∈ ["높음", "심각", "중함"] then "중대"
  else "중간"

/-- `_normalize_severity`: trim, lowercase, then look the key up. -/
def normalize_severity (value : String) : String :=
  severity_of_key (ascii_lower (py_strip value))

/-- Python `str(d.get(key) or dflt)` for a string default: the rendered
value when present and truthy, the default otherwise. -/
def get_str_or (item : JObj) (key : String) (dflt : String) : String :=
  match obj_get item key with
  | some v => if py_truthy v then py_str v else dflt
  | none => dflt

/-- One entry of the normalized `possible_crimes` list (the `Judgment`
pydantic model: title, basis, severity). -/
structure Judgment where
  title : String
  basis : String
  severity : String
deriving DecidableEq, Repr

/-- The `JudgmentResponse` pydantic model. -/
structure JudgmentResponse where
  summary : String
  possible_crimes : List Judgment
  verdict : String
  disclaimer : String
deriving DecidableEq, Repr

/-- The per-element body of the `possible_crimes` loop in
`_normalize_response`: non-dict elements are skipped, as is any element
whose trimmed title or basis is empty; otherwise a `Judgment` entry is
built with the normalized severity (defaulting the severity input to
`중간` when absent or falsy). -/
def crime_of_item (item : Json) : Option Judgment :=
  match item with
  | Json.obj o =>
    let title := py_strip (get_str_or o "title" "")
    let basis := py_strip (get_str_or o "basis" "")
    if title = "" || basis = "" then none
    else some ⟨title, basis, normalize_severity (get_str_or o "severity" "중간")⟩
  | _ => none

/-- Python `str(data.get(key) or "").strip() or dflt`: the trimmed
rendering of a present-and-truthy field, or the default when that trims to
empty. -/
def field_str_or (data : JObj) (key : String) (dflt : String) : String :=
  let s := py_strip (get_str_or data key "")
  if s = "" then dflt else s

/-- The disclaimer value before the marker check: the trimmed upstream
field, or the fixed default disclaimer. -/
def disclaimer_source (data : JObj) : String :=
  field_str_or data "disclaimer" "법률 자문이 아니며 참고용입니다."

/-- `_normalize_response`: coerce a recovered JSON object into the
canonical `JudgmentResponse`, with field-wise defaulting, the disclaimer
marker invariant, and the `possible_crimes` filtering loop. -/
def normalize_response (data : JObj) (story : String) : JudgmentResponse :=
  let summary := field_str_or data "summary" (short_story story)
  let verdict := field_str_or data "verdict" "판단 요약을 제공하지 못했습니다."
  let disclaimer0 := disclaimer_source data
  let disclaimer :=
    if py_in "법률 자문" disclaimer0 then disclaimer0
    else disclaimer0 ++ " (법률 자문이 아님)"
  let crimes_raw : Json :=
    match obj_get data "possible_crimes" with
    | some v => if py_truthy v then v else Json.arr []
    | none => Json.arr []
  let crimes :=
    match crimes_raw with
    | Json.arr items => items.filterMap crime_of_item
    | _ => []
  ⟨summary, crimes, verdict, disclaimer⟩

/-- `_fallback_response`: the typed fallback judgment, with the default
no-credential verdict unless a specific one is supplied. -/
def fallback_response (story : String) (verdict : Option String) : JudgmentResponse :=
  ⟨short_story story, [],
    verdict.getD "OPENAI_API_KEY가 설정되지 않아 모의 판단만 제공합니다.",
    "법률 자문이 아니며 참고용입니다."⟩

/-- The `SYSTEM_PROMPT` constant of the service module (the Python source
wraps it in a triple-quoted literal and strips it; this is the stripped
value). -/
def SYSTEM_PROMPT : String :=
  "너는 한국어로 답하는 " ++ squote ++ "AI 판사" ++ squote ++ "야.\n" ++
  "사용자의 사연을 읽고, 가능한 죄명과 근거를 조심스럽게 추정해.\n" ++
  "반드시 JSON만 출력하고, 아래 스키마를 정확히 따를 것:\n" ++
  "\x7b\n" ++
  "  \"summary\": string,\n" ++
  "  \"possible_crimes\": [\n" ++
  "    \x7b\"title\": string, \"basis\": string, \"severity\": \"경미\"|\"중간\"|\"중대\"\x7d\n" ++
  "  ],\n" ++
  "  \"verdict\": string,\n" ++
  "  \"disclaimer\": string\n" ++
  "\x7d\n" ++
  "주의:\n" ++
  "- 확실하지 않으면 \"가능성이 낮음\" 같은 완화 표현을 사용\n" ++
  "- 사실관계가 부족하면 그 점을 명시\n" ++
  "- 단정적 유죄 표현 금지 (가능성/의심/추정 표현 사용)\n" ++
  "- 인격 모욕, 혐오 발언 금지\n" ++
  "- 법률 자문이 아님을 disclaimer에 명시"

/-- `_build_user_prompt`: the trimmed story alone when there are no
evidence lines, otherwise the fixed template with the bulleted evidence
list and the metadata-only note. -/
def build_user_prompt (story : String) (evidence_context : List String) : String :=
  let normalized_story := py_strip story
  if evidence_context.isEmpty then normalized_story
  else
    let joined := String.intercalate "\n" (evidence_context.map (fun line => "- " ++ line))
    "사연:\n" ++ normalized_story ++ "\n\n" ++
      "첨부 증거(메타데이터):\n" ++ joined ++ "\n\n" ++
      "주의: 첨부 파일의 원문 내용은 분석하지 못했고 파일명/형식/크기 정보만 전달됨."

/-- The keyword arguments `_build_completion_kwargs` passes to
`chat.completions.create`: the model, the two-message conversation, the
timeout, whether `response_format = json_object` is present (it is omitted
exactly when `force_plain_json` is set), and the completion-token cap. -/
structure CompletionKwargs where
  model : String
  messages : List (String × String)
  timeout : ℚ
  response_format_json_object : Bool
  max_completion_tokens : Nat
deriving DecidableEq, Repr

/-- `_build_completion_kwargs`. -/
def build_completion_kwargs (model : String) (user_prompt : String)
    (timeout_seconds : ℚ) (force_plain_json : Bool) : CompletionKwargs :=
  ⟨model,
    [("system", SYSTEM_PROMPT), ("user", user_prompt)],
    timeout_seconds,
    !force_plain_json,
    700⟩

/-- The `content` attribute of a chat-completion message: a plain string, a
list of parts (each part reduced to its `text` field/attribute — `none`
when the part has no string text), or anything else. -/
inductive MsgContent where
  | str (s : String)
  | parts (ps : List (Option String))
  | other

/-- A chat-completion message as the service reads it. -/
structure ChatMessage where
  content : MsgContent

/-- Outcome of one `chat.completions.create` call: the call either raises
or returns a message (the first choice's message). -/
inductive BackendResult where
  | raises
  | ok (message : ChatMessage)

/-- A completion backend, modelled as the sequence of outcomes of its
successive calls: call number `i` yields `backend i`. -/
def Backend := Nat → BackendResult

/-- `_extract_message_text`: a string content verbatim; a list content as
the newline-join of those part texts that are strings with non-empty strip;
anything else as the empty string. -/
def extract_message_text (message : ChatMessage) : String :=
  match message.content with
  | MsgContent.str s => s
  | MsgContent.parts ps =>
    String.intercalate "\n"
      (ps.filterMap (fun t =>
        match t with
        | some s => if py_strip s ≠ "" then some s else none
        | none => none))
  | MsgContent.other => ""

/-- Line 266 of the service: `_safe_json_loads(content) or _extract_json(content)`
under Python `or` (a recovered empty dict is falsy, so the brace-scan still
runs after a whole-string parse that produced `\x7b\x7d`). -/
def recover_json (content : String) : Option JObj :=
  match safe_json_loads content with
  | some o => if o.isEmpty then extract_json content else some o
  | none => extract_json content

/-- Truthiness of the recovered `dict[str, Any] | None` value, as tested by
`if data:` — `None` and the empty dict are both falsy. -/
def jobj_truthy : Option JObj → Bool
  | some o => !o.isEmpty
  | none => false

/-- `_request_json_data`: the primary structured-output call, the
truthiness-gated parse, the single plain-JSON retry, and the final
`(data, reason)` classification. Alongside the Python return value the
embedding returns the list of call attempts actually made, each with the
kwargs it was issued with (this is the observable the call-counting
properties quantify over). -/
def request_json_data (backend : Backend) (model : String) (user_prompt : String)
    (timeout_seconds : ℚ) :
    (Option JObj × Option String) × List CompletionKwargs :=
  let first_kwargs := build_completion_kwargs model user_prompt timeout_seconds false
  match backend 0 with
  | BackendResult.raises => ((none, some "call_error"), [first_kwargs])
  | BackendResult.ok message =>
    let content := extract_message_text message
    let data := recover_json content
    if jobj_truthy data then ((data, none), [first_kwargs])
    else
      let retry_kwargs := build_completion_kwargs model user_prompt timeout_seconds true
      match backend 1 with
      | BackendResult.raises => ((none, some "call_error"), [first_kwargs, retry_kwargs])
      | BackendResult.ok retry_message =>
        let retry_content := extract_message_text retry_message
        let retry_data := recover_json retry_content
        if jobj_truthy retry_data then ((retry_data, none), [first_kwargs, retry_kwargs])
        else ((none, some "parse_error"), [first_kwargs, retry_kwargs])

/-- `judge_story`: strip the story and return the empty-story fallback on
empty input; return the no-credential fallback when no client can be built
(`has_api_key` models `settings.openai_api_key` being set); otherwise
request JSON data and dispatch on the truthy-data / call-error /
parse-error trichotomy. The second component is the list of backend call
attempts made. -/
def judge_story (has_api_key : Bool) (model : String) (timeout_seconds : ℚ)
    (backend : Backend) (story : String) (evidence_context : List String) :
    JudgmentResponse × List CompletionKwargs :=
  if py_strip story = "" then
    (fallback_response (py_strip story) (some "사연이 비어 있어 판단을 생성할 수 없습니다."), [])
  else if !has_api_key then (fallback_response (py_strip story) none, [])
  else if jobj_truthy (request_json_data backend model
      (build_user_prompt (py_strip story) evidence_context) timeout_seconds).1.1 then
    (normalize_response
      ((request_json_data backend model
          (build_user_prompt (py_strip story) evidence_context) timeout_seconds).1.1.getD [])
      (py_strip story),
     (request_json_data backend model
        (build_user_prompt (py_strip story) evidence_context) timeout_seconds).2)
  else if (request_json_data backend model
      (build_user_prompt (py_strip story) evidence_context) timeout_seconds).1.2 =
      some "call_error" then
    (fallback_response (py_strip story) (some "모델 호출에 실패했습니다. 잠시 후 다시 시도해 주세요."),
     (request_json_data backend model
        (build_user_prompt (py_strip story) evidence_context) timeout_seconds).2)
  else
    (fallback_response (py_strip story) (some "모델 응답을 파싱하지 못했습니다. 잠시 후 다시 시도해 주세요."),
     (request_json_data backend model
        (build_user_prompt (py_strip story) evidence_context) timeout_seconds).2)

/-- Python `filename.split("/")[-1]` for a slash-separated name: the suffix
after the last slash (the whole string when no slash occurs). -/
def last_component (cs : List Char) : List Char :=
  (cs.reverse.takeWhile (fun c => !(c == '/'))).reverse

/-- Python `(filename or "").replace("\\", "/")` — the pattern is a single
character, so the replacement is character-wise. -/
def replace_bslash (cs : List Char) : List Char :=
  cs.map (fun c => if c == '\\' then '/' else c)

/-- `_sanitize_filename`: treat backslashes as slashes, strip, keep the
last path component, and fall back to `unnamed` when nothing usable
remains. -/
def sanitize_filename (filename : Option String) : String :=
  if (py_strip_list (replace_bslash (filename.getD "").toList)).isEmpty then "unnamed"
  else if (last_component (py_strip_list (replace_bslash (filename.getD "").toList))).isEmpty
    then "unnamed"
  else String.mk (last_component (py_strip_list (replace_bslash (filename.getD "").toList)))

/-- `os.path.splitext` followed by `.lower().lstrip(".")`, for a name with
no path separators (which is what `_extract_extension` receives): the
lowercased characters after the last dot, or empty when there is no dot or
every character before the last dot is itself a dot (`splitext`'s
leading-dots rule; `lstrip(".")` then removes the extension's own dot). -/
def extract_extension (filename : String) : String :=
  let cs := filename.toList
  if cs.contains '.' then
    let after := (cs.reverse.takeWhile (fun c => !(c == '.'))).reverse
    if (cs.take (cs.length - after.length - 1)).all (fun c => c == '.') then ""
    else String.mk (after.map Char.toLower)
  else ""

/-- `EVIDENCE_MAX_FILES`. -/
def EVIDENCE_MAX_FILES : Nat := 3

/-- `EVIDENCE_MAX_FILE_BYTES` (8 MiB). -/
def EVIDENCE_MAX_FILE_BYTES : Nat := 8 * 1024 * 1024

/-- `ALLOWED_EVIDENCE_EXTENSIONS`. -/
def ALLOWED_EVIDENCE_EXTENSIONS : List String :=
  ["jpg", "jpeg", "png", "webp", "gif", "bmp", "heic", "heif", "pdf"]

/-- Outcome of `await file.read()`: the read either raises (an unexpected
exception) or yields content, of which only the byte count is ever used. -/
inductive ReadOutcome where
  | raises
  | ok (size : Nat)

/-- An `UploadFile` as the validator observes it: declared filename and
content type, the outcome of reading it, and whether its `close()` raises
(the service swallows such failures). -/
structure UFile where
  filename : Option String
  content_type : Option String
  read : ReadOutcome
  close_raises : Bool

/-- How `build_evidence_context` exits: with the descriptor lines, with an
`EvidenceValidationError` carrying a message, or by propagating an
unexpected exception raised while reading. -/
inductive EvOutcome where
  | ok (lines : List String)
  | validation_error (msg : String)
  | unexpected_error
deriving DecidableEq, Repr

/-- The descriptor line rendered for one accepted file. -/
def evidence_line (index : Nat) (filename : String) (extension : String)
    (content_type : Option String) (size : Nat) : String :=
  let file_type := if extension = "pdf" then "PDF" else "이미지"
  let ct := py_strip (if (content_type.getD "") = "" then "unknown" else content_type.getD "")
  toString index ++ ". " ++ filename ++ " (" ++ file_type ++ ", " ++ ct ++ ", " ++
    toString size ++ " bytes)"

/-- The `for` body of `build_evidence_context` over the remaining files
(fail-fast: the first failure stops the iteration). `index` is the 1-based
position of the head file. -/
def ev_loop (index : Nat) : List UFile → EvOutcome
  | [] => EvOutcome.ok []
  | f :: rest =>
    if extract_extension (sanitize_filename f.filename) ∉ ALLOWED_EVIDENCE_EXTENSIONS then
      EvOutcome.validation_error
        ("지원하지 않는 파일 형식입니다: " ++ sanitize_filename f.filename)
    else
      match f.read with
      | ReadOutcome.raises => EvOutcome.unexpected_error
      | ReadOutcome.ok size =>
        if size = 0 then
          EvOutcome.validation_error
            ("비어 있는 파일은 업로드할 수 없습니다: " ++ sanitize_filename f.filename)
        else if size > EVIDENCE_MAX_FILE_BYTES then
          EvOutcome.validation_error
            ("파일 크기 제한(8MB)을 초과했습니다: " ++ sanitize_filename f.filename)
        else
          match ev_loop (index + 1) rest with
          | EvOutcome.ok lines =>
            EvOutcome.ok
              (evidence_line index (sanitize_filename f.filename)
                (extract_extension (sanitize_filename f.filename)) f.content_type size :: lines)
          | e => e

/-- `build_evidence_context`: the too-many-files check (raised before the
`try`/`finally` is entered), then the per-file loop guarded by a `finally`
that attempts to close every file of the input list, swallowing any
exception the close itself raises. The second component records the
0-based indices of the files whose `close()` was attempted; it is empty
exactly when the too-many-files error fires, because that raise precedes
the `try` block. -/
def build_evidence_context (evidence_files : List UFile) : EvOutcome × List Nat :=
  if evidence_files.length > EVIDENCE_MAX_FILES then
    (EvOutcome.validation_error
      ("증거 파일은 최대 " ++ toString EVIDENCE_MAX_FILES ++ "개까지 업로드할 수 있습니다."), [])
  else
    (ev_loop 1 evidence_files, List.range evidence_files.length)

/-- A row of the `app_user` table. Timestamps are abstract ticks (the code
only ever stores `datetime.utcnow()` and compares nothing). -/
structure UserRec where
  id : Nat
  udid : String
  created_at : Nat
  last_login_at : Nat
deriving DecidableEq, Repr

/-- The user table plus the autoincrement counter for the next primary
key. -/
structure UserDB where
  rows : List UserRec
  next_id : Nat
deriving DecidableEq, Repr

/-- `session.exec(select(User).where(User.udid == udid)).first()`. -/
def find_user (db : UserDB) (udid : String) : Option UserRec :=
  db.rows.find? (fun r => r.udid == udid)

/-- Replace the first row with the given udid by the updated row. -/
def update_row (rows : List UserRec) (udid : String) (u2 : UserRec) : List UserRec :=
  match rows with
  | [] => []
  | r :: rest => if r.udid == udid then u2 :: rest else r :: update_row rest udid u2

/-- The `/user/login` endpoint: strip the udid, look the user up; create it
with `created_at = last_login_at = now` when absent, otherwise set
`last_login_at = now`; return the (refreshed) row. -/
def login (db : UserDB) (now : Nat) (udid_raw : String) : UserRec × UserDB :=
  match find_user db (py_strip udid_raw) with
  | none =>
    (⟨db.next_id, py_strip udid_raw, now, now⟩,
     ⟨db.rows ++ [⟨db.next_id, py_strip udid_raw, now, now⟩], db.next_id + 1⟩)
  | some u =>
    (⟨u.id, u.udid, u.created_at, now⟩,
     ⟨update_row db.rows (py_strip udid_raw) ⟨u.id, u.udid, u.created_at, now⟩, db.next_id⟩)

/-- `_upsert_user` of the judge router: create the row when the udid is
unseen (with `created_at = last_login_at = now`); when a row already
exists, do nothing — in particular `last_login_at` is not touched. -/
def upsert_user (db : UserDB) (now : Nat) (udid : String) : UserDB :=
  match find_user db udid with
  | none => ⟨db.rows ++ [⟨db.next_id, udid, now, now⟩], db.next_id + 1⟩
  | some _ => db

/-- Check at one scan position, modelled from the spec's wording: a
position succeeds when it holds a left brace and the streaming decode of
the suffix starting there yields an object (trailing garbage ignored,
because `raw_decode` stops at the end of the value). -/
def pos_check (suffix : List Char) : Option JObj :=
  match suffix with
  | [] => none
  | c :: rest =>
    if c == lbrace then
      match raw_decode (c :: rest) with
      | some (Json.obj o, _) => some o
      | _ => none
    else none

/-- The scan as the spec words it: over every position of the text,
left-to-right, return the object decoded at the first succeeding
position. -/
def first_obj_scan (s : String) : Option JObj :=
  (List.range s.toList.length).findSome? (fun i => pos_check (s.toList.drop i))

theorem extract_json_list_cons (c : Char) (rest : List Char) :
    extract_json_list (c :: rest) =
      match pos_check (c :: rest) with
      | some o => some o
      | none => extract_json_list rest := by
  simp only [extract_json_list, pos_check]
  cases hb : c == lbrace with
  | false => simp
  | true =>
    simp only [if_true]
    cases hr : raw_decode (c :: rest) with
    | none => rfl
    | some p =>
      obtain ⟨v, r⟩ := p
      cases v <;> rfl

theorem extract_json_list_eq_scan (cs : List Char) :
    extract_json_list cs =
      (List.range cs.length).findSome? (fun i => pos_check (cs.drop i)) := by
  induction cs with
  | nil => rfl
  | cons c rest ih =>
    rw [extract_json_list_cons, List.length_cons, List.range_succ_eq_map,
      List.findSome?_cons]
    cases hpc : pos_check (c :: rest) with
    | some o => simp [hpc]
    | none =>
      simp only [List.drop_zero, hpc]
      rw [List.findSome?_map]
      simp only [Function.comp_def, List.drop_succ_cons]
      exact ih

/-- C2: `_safe_json_loads` accepts exactly the whole-string parses whose
value is an object; `_extract_json` equals the spec's left-to-right scan
over every brace position, returning the object decoded at the first
succeeding position (`none` when no position succeeds, by that equality);
and the scan recovers an object fenced in markdown after prose, on the
spec's own example. -/
theorem c2_json_object_recovery :
    (∀ s o, safe_json_loads s = some o ↔ json_loads s = some (Json.obj o)) ∧
    (∀ s, extract_json s = first_obj_scan s) ∧
    extract_json
        ("results:\n```json\n\x7b\"summary\":\"x\",\"possible_crimes\":[],\"verdict\":\"y\",\"disclaimer\":\"z\"\x7d\n```")
      = some [("summary", Json.str "x"), ("possible_crimes", Json.arr []),
              ("verdict", Json.str "y"), ("disclaimer", Json.str "z")] ∧
    safe_json_loads
        ("results:\n```json\n\x7b\"summary\":\"x\",\"possible_crimes\":[],\"verdict\":\"y\",\"disclaimer\":\"z\"\x7d\n```")
      = none := by
  refine ⟨?_, ?_, ?_, ?_⟩
  · intro s o
    unfold safe_json_loads
    cases h : json_loads s with
    | none => simp
    | some v => cases v <;> simp
  · intro s
    exact extract_json_list_eq_scan s.toList
  · rfl
  · rfl

/-- The spec's synonym table for LOW/경미 (native terms for minor/low plus
English equivalents). -/
def LOW_SYNONYMS : List String := ["경미", "low", "minor", "낮음", "경미함", "가벼움"]

/-- The spec's synonym table for MEDIUM/중간. -/
def MEDIUM_SYNONYMS : List String := ["중간", "medium", "moderate", "보통", "중간정도"]

/-- The spec's synonym table for HIGH/중대 (major/high/severe/critical and
native equivalents). -/
def HIGH_SYNONYMS : List String :=
  ["중대", "high", "major", "severe", "critical", "높음", "심각", "중함"]

theorem severity_of_key_spec (n : String) :
    (severity_of_key n = "경미" ∨ severity_of_key n = "중간" ∨ severity_of_key n = "중대") ∧
    (n ∈ LOW_SYNONYMS → severity_of_key n = "경미") ∧
    (n ∈ MEDIUM_SYNONYMS → severity_of_key n = "중간") ∧
    (n ∈ HIGH_SYNONYMS → severity_of_key n = "중대") ∧
    (n ∉ LOW_SYNONYMS ∧ n ∉ MEDIUM_SYNONYMS ∧ n ∉ HIGH_SYNONYMS →
      severity_of_key n = "중간") := by
  refine ⟨?_, ?_, ?_, ?_, ?_⟩
  · unfold severity_of_key
    split_ifs <;> simp
  · intro h
    fin_cases h <;> rfl
  · intro h
    fin_cases h <;> rfl
  · intro h
    fin_cases h <;> rfl
  · rintro ⟨h1, h2, h3⟩
    unfold severity_of_key
    split_ifs with g1 g2 g3 g4 g5 g6
    · exact absurd g1 (by fin_cases g1 <;> exact absurd (by decide) h1)
    · rfl
    · exact absurd g3 (by fin_cases g3 <;> exact absurd (by decide) h3)
    · exact absurd g4 (by fin_cases g4 <;> exact absurd (by decide) h1)
    · rfl
    · exact absurd g6 (by fin_cases g6 <;> exact absurd (by decide) h3)
    · rfl

/-- C7: `_normalize_severity` is total into the three-value enum; every
recognized synonym (after trimming and case folding) maps to its
designated value, and any unrecognized key maps to 중간 (MEDIUM). -/
theorem c7_severity_normalization (value : String) :
    (normalize_severity value = "경미" ∨ normalize_severity value = "중간" ∨
      normalize_severity value = "중대") ∧
    (ascii_lower (py_strip value) ∈ LOW_SYNONYMS → normalize_severity value = "경미") ∧
    (ascii_lower (py_strip value) ∈ MEDIUM_SYNONYMS → normalize_severity value = "중간") ∧
    (ascii_lower (py_strip value) ∈ HIGH_SYNONYMS → normalize_severity value = "중대") ∧
    (ascii_lower (py_strip value) ∉ LOW_SYNONYMS ∧
      ascii_lower (py_strip value) ∉ MEDIUM_SYNONYMS ∧
      ascii_lower (py_strip value) ∉ HIGH_SYNONYMS →
      normalize_severity value = "중간") :=
  severity_of_key_spec (ascii_lower (py_strip value))

/-- Witness for C7: a recognized synonym (case-insensitive, padded) and an
unrecognized value, judged at concrete inputs through the theorem. -/
theorem c7_severity_normalization_witness :
    normalize_severity "  HIGH " = "중대" ∧ normalize_severity "뭐지" = "중간" :=
  ⟨(c7_severity_normalization "  HIGH ").2.2.2.1 (by decide),
   (c7_severity_normalization "뭐지").2.2.2.2 ⟨by decide, by decide, by decide⟩⟩

/-- Python `isinstance(x, dict)` on a decoded JSON value. -/
def is_obj : Json → Bool
  | Json.obj _ => true
  | _ => false

theorem crime_of_item_some_shape (item : Json) (c : Judgment)
    (h : crime_of_item item = some c) : c.title ≠ "" ∧ c.basis ≠ "" := by
  cases item with
  | obj o =>
    simp only [crime_of_item] at h
    split at h
    · exact absurd h (by simp)
    · rename_i hcond
      injection h with h2
      subst h2
      simp only [Bool.or_eq_true, decide_eq_true_eq] at hcond
      push_neg at hcond
      exact ⟨hcond.1, hcond.2⟩
  | null => simp [crime_of_item] at h
  | bool b => simp [crime_of_item] at h
  | num n => simp [crime_of_item] at h
  | str s => simp [crime_of_item] at h
  | arr xs => simp [crime_of_item] at h

theorem normalize_crimes_eq (data : JObj) (story : String) :
    (normalize_response data story).possible_crimes =
      match
        (match obj_get data "possible_crimes" with
          | some v => if py_truthy v then v else Json.arr []
          | none => Json.arr []) with
      | Json.arr items => items.filterMap crime_of_item
      | _ => [] := rfl

/-- C8: every normalized `possible_crimes` entry has non-empty trimmed
title and basis; when the field is an array the output is exactly the
filter-map of the per-item rule, under which non-dict items and items with
empty trimmed title or basis map to nothing (so a dropped item appears
nowhere in the output); and a missing or non-array field yields the empty
list. -/
theorem c8_possible_crimes_filtering (data : JObj) (story : String) :
    (∀ c ∈ (normalize_response data story).possible_crimes, c.title ≠ "" ∧ c.basis ≠ "") ∧
    (∀ xs, obj_get data "possible_crimes" = some (Json.arr xs) →
      (normalize_response data story).possible_crimes = xs.filterMap crime_of_item) ∧
    (∀ item, is_obj item = false → crime_of_item item = none) ∧
    (∀ o, py_strip (get_str_or o "title" "") = "" → crime_of_item (Json.obj o) = none) ∧
    (∀ o, py_strip (get_str_or o "basis" "") = "" → crime_of_item (Json.obj o) = none) ∧
    ((∀ xs, obj_get data "possible_crimes" ≠ some (Json.arr xs)) →
      (normalize_response data story).possible_crimes = []) := by
  refine ⟨?_, ?_, ?_, ?_, ?_, ?_⟩
  · intro c hc
    rw [normalize_crimes_eq] at hc
    split at hc
    · obtain ⟨a, _, ha⟩ := List.mem_filterMap.mp hc
      exact crime_of_item_some_shape a c ha
    · simp at hc
  · intro xs hg
    rw [normalize_crimes_eq, hg]
    by_cases hxs : xs.isEmpty
    · rw [List.isEmpty_iff] at hxs
      subst hxs
      simp [py_truthy]
    · simp [py_truthy, hxs]
  · intro item h
    cases item <;> simp_all [crime_of_item, is_obj]
  · intro o h
    simp [crime_of_item, h]
  · intro o h
    simp [crime_of_item, h]
  · intro hne
    rcases hg : obj_get data "possible_crimes" with _ | v
    · rw [normalize_crimes_eq, hg]
      rfl
    · cases v with
      | arr xs => exact absurd hg (hne xs)
      | null =>
        rw [normalize_crimes_eq, hg]
        rfl
      | bool b =>
        rw [normalize_crimes_eq, hg]
        cases b <;> simp [py_truthy]
      | num n =>
        rw [normalize_crimes_eq, hg]
        cases ht : py_truthy (Json.num n) <;> simp [ht]
      | str s =>
        rw [normalize_crimes_eq, hg]
        cases ht : py_truthy (Json.str s) <;> simp [ht]
      | obj o =>
        rw [normalize_crimes_eq, hg]
        cases ht : py_truthy (Json.obj o) <;> simp [ht]

/-- Witness for C8: a concrete response where the entry with blank title is
dropped and the well-formed entry survives, normalized. -/
theorem c8_possible_crimes_filtering_witness :
    crime_of_item (Json.obj [("title", Json.str " "), ("basis", Json.str "b")]) = none ∧
    (normalize_response
        [("possible_crimes",
          Json.arr
            [Json.obj [("title", Json.str "절도"), ("basis", Json.str "근거"),
              ("severity", Json.str "high")],
             Json.obj [("title", Json.str " "), ("basis", Json.str "b")]])]
        "이야기").possible_crimes = [⟨"절도", "근거", "중대"⟩] := by
  constructor
  · exact
      (c8_possible_crimes_filtering
          [("possible_crimes",
            Json.arr
              [Json.obj [("title", Json.str "절도"), ("basis", Json.str "근거"),
                ("severity", Json.str "high")],
               Json.obj [("title", Json.str " "), ("basis", Json.str "b")]])]
          "이야기").2.2.2.1
        [("title", Json.str " "), ("basis", Json.str "b")] (by rfl)
  · rw [(c8_possible_crimes_filtering
        [("possible_crimes",
          Json.arr
            [Json.obj [("title", Json.str "절도"), ("basis", Json.str "근거"),
              ("severity", Json.str "high")],
             Json.obj [("title", Json.str " "), ("basis", Json.str "b")]])]
        "이야기").2.1
      [Json.obj [("title", Json.str "절도"), ("basis", Json.str "근거"),
        ("severity", Json.str "high")],
       Json.obj [("title", Json.str " "), ("basis", Json.str "b")]] (by rfl)]
    rfl

theorem infix_of_b_append_right (n s t : List Char) (h : infix_of_b n t = true) :
    infix_of_b n (s ++ t) = true := by
  induction s with
  | nil => simpa using h
  | cons c cs ih =>
    rw [List.cons_append]
    unfold infix_of_b
    simp only [ih]
    simp

theorem py_in_append_right (n s t : String) (h : py_in n t = true) :
    py_in n (s ++ t) = true := by
  unfold py_in at *
  rw [show (s ++ t).toList = s.toList ++ t.toList from String.data_append s t]
  exact infix_of_b_append_right n.toList s.toList t.toList h

theorem normalize_disclaimer_eq (data : JObj) (story : String) :
    (normalize_response data story).disclaimer =
      if py_in "법률 자문" (disclaimer_source data) = true then disclaimer_source data
      else disclaimer_source data ++ " (법률 자문이 아님)" := rfl

theorem fallback_disclaimer_marker (story : String) (v : Option String) :
    py_in "법률 자문" (fallback_response story v).disclaimer = true := rfl

theorem normalize_disclaimer_marker (data : JObj) (story : String) :
    py_in "법률 자문" (normalize_response data story).disclaimer = true := by
  rw [normalize_disclaimer_eq]
  by_cases h : py_in "법률 자문" (disclaimer_source data) = true
  · simp [h]
  · simp only [h, if_false]
    exact py_in_append_right "법률 자문" (disclaimer_source data) " (법률 자문이 아님)" rfl

set_option maxRecDepth 8192 in
theorem judge_story_disclaimer_marker (k : Bool) (m : String) (t : ℚ) (b : Backend)
    (story : String) (ctx : List String) :
    py_in "법률 자문" (judge_story k m t b story ctx).1.disclaimer = true := by
  unfold judge_story
  split_ifs
  · exact fallback_disclaimer_marker _ _
  · exact fallback_disclaimer_marker _ _
  · exact normalize_disclaimer_marker _ _
  · exact fallback_disclaimer_marker _ _
  · exact fallback_disclaimer_marker _ _

/-- C6: every Judgment the service produces carries the legal-disclaimer
marker `법률 자문` in its disclaimer — through `_normalize_response` on any
recovered object, through `_fallback_response` on every fallback path, and
hence through `judge_story` however the orchestration goes; and when the
upstream disclaimer lacks the marker, the parenthetical marker is appended
to it. -/
theorem c6_disclaimer_invariant :
    (∀ data story, py_in "법률 자문" (normalize_response data story).disclaimer = true) ∧
    (∀ story v, py_in "법률 자문" (fallback_response story v).disclaimer = true) ∧
    (∀ k m t b story ctx,
      py_in "법률 자문" (judge_story k m t b story ctx).1.disclaimer = true) ∧
    (∀ data story, py_in "법률 자문" (disclaimer_source data) = false →
      (normalize_response data story).disclaimer =
        disclaimer_source data ++ " (법률 자문이 아님)") := by
  refine ⟨normalize_disclaimer_marker, fallback_disclaimer_marker,
    judge_story_disclaimer_marker, ?_⟩
  intro data story h
  rw [normalize_disclaimer_eq]
  simp [h]

/-- Witness for C6: an upstream disclaimer lacking the marker gets the
parenthetical marker appended, at a concrete input. -/
theorem c6_disclaimer_invariant_witness :
    (normalize_response [("disclaimer", Json.str "참고용 안내")] "사연").disclaimer =
      "참고용 안내 (법률 자문이 아님)" := by
  have h :=
    c6_disclaimer_invariant.2.2.2 [("disclaimer", Json.str "참고용 안내")] "사연" (by rfl)
  exact h.trans (by rfl)

theorem request_json_data_primary_raises (b : Backend) (m p : String) (t : ℚ)
    (h : b 0 = BackendResult.raises) :
    request_json_data b m p t =
      ((none, some "call_error"), [build_completion_kwargs m p t false]) := by
  unfold request_json_data
  rw [h]

theorem jobj_truthy_some_of_ne (o : JObj) (ho : o ≠ []) : jobj_truthy (some o) = true := by
  simp [jobj_truthy, List.isEmpty_eq_true, ho]

theorem request_json_data_primary_truthy (b : Backend) (m p : String) (t : ℚ)
    (msg : ChatMessage) (o : JObj) (h0 : b 0 = BackendResult.ok msg)
    (hr : recover_json (extract_message_text msg) = some o) (ho : o ≠ []) :
    request_json_data b m p t =
      ((some o, none), [build_completion_kwargs m p t false]) := by
  unfold request_json_data
  rw [h0]
  simp only [hr, jobj_truthy_some_of_ne o ho, if_true]

theorem request_json_data_retry_raises (b : Backend) (m p : String) (t : ℚ)
    (msg0 : ChatMessage) (h0 : b 0 = BackendResult.ok msg0)
    (hf : jobj_truthy (recover_json (extract_message_text msg0)) = false)
    (h1 : b 1 = BackendResult.raises) :
    request_json_data b m p t =
      ((none, some "call_error"),
       [build_completion_kwargs m p t false, build_completion_kwargs m p t true]) := by
  unfold request_json_data
  rw [h0]
  simp only [hf, Bool.false_eq_true, if_false, h1]

theorem request_json_data_retry_truthy (b : Backend) (m p : String) (t : ℚ)
    (msg0 msg1 : ChatMessage) (o : JObj) (h0 : b 0 = BackendResult.ok msg0)
    (hf : jobj_truthy (recover_json (extract_message_text msg0)) = false)
    (h1 : b 1 = BackendResult.ok msg1)
    (hr : recover_json (extract_message_text msg1) = some o) (ho : o ≠ []) :
    request_json_data b m p t =
      ((some o, none),
       [build_completion_kwargs m p t false, build_completion_kwargs m p t true]) := by
  unfold request_json_data
  rw [h0]
  simp only [hf, Bool.false_eq_true, if_false, h1, hr,
    jobj_truthy_some_of_ne o ho, if_true]

theorem request_json_data_retry_parse_fail (b : Backend) (m p : String) (t : ℚ)
    (msg0 msg1 : ChatMessage) (h0 : b 0 = BackendResult.ok msg0)
    (hf : jobj_truthy (recover_json (extract_message_text msg0)) = false)
    (h1 : b 1 = BackendResult.ok msg1)
    (hf1 : jobj_truthy (recover_json (extract_message_text msg1)) = false) :
    request_json_data b m p t =
      ((none, some "parse_error"),
       [build_completion_kwargs m p t false, build_completion_kwargs m p t true]) := by
  unfold request_json_data
  rw [h0]
  simp only [hf, Bool.false_eq_true, if_false, h1, hf1]

theorem judge_story_of_truthy_request (m : String) (t : ℚ) (b : Backend) (story : String)
    (ctx : List String) (o : JObj) (L : List CompletionKwargs)
    (hs : py_strip story ≠ "")
    (hreq : request_json_data b m (build_user_prompt (py_strip story) ctx) t =
      ((some o, none), L))
    (ho : o ≠ []) :
    judge_story true m t b story ctx = (normalize_response o (py_strip story), L) := by
  unfold judge_story
  rw [if_neg hs]
  simp only [Bool.not_true, Bool.false_eq_true, if_false, hreq,
    jobj_truthy_some_of_ne o ho, if_true, Option.getD_some]

theorem judge_story_of_call_error (m : String) (t : ℚ) (b : Backend) (story : String)
    (ctx : List String) (L : List CompletionKwargs)
    (hs : py_strip story ≠ "")
    (hreq : request_json_data b m (build_user_prompt (py_strip story) ctx) t =
      ((none, some "call_error"), L)) :
    judge_story true m t b story ctx =
      (fallback_response (py_strip story)
        (some "모델 호출에 실패했습니다. 잠시 후 다시 시도해 주세요."), L) := by
  unfold judge_story
  rw [if_neg hs]
  simp [hreq, jobj_truthy]

theorem judge_story_of_parse_error (m : String) (t : ℚ) (b : Backend) (story : String)
    (ctx : List String) (L : List CompletionKwargs)
    (hs : py_strip story ≠ "")
    (hreq : request_json_data b m (build_user_prompt (py_strip story) ctx) t =
      ((none, some "parse_error"), L)) :
    judge_story true m t b story ctx =
      (fallback_response (py_strip story)
        (some "모델 응답을 파싱하지 못했습니다. 잠시 후 다시 시도해 주세요."), L) := by
  unfold judge_story
  rw [if_neg hs]
  simp [hreq, jobj_truthy]

/-- Counterexample for C1: `\x7b\x7d` does yield a recoverable JSON object
(the empty one), yet with a backend always answering `\x7b\x7d` the
orchestrator takes the retry (two calls) and returns the parse-failure
fallback, not the Judgment normalized from that object — the truthiness
test `if data:` treats the recovered empty dict as a parse failure. -/
theorem c1_counterexample :
    recover_json "\x7b\x7d" = some [] ∧
    (judge_story true "gpt-4o" 30 (fun _ => BackendResult.ok ⟨MsgContent.str "\x7b\x7d"⟩)
        "친구가 날 밀쳤다" []).2.length = 2 ∧
    (judge_story true "gpt-4o" 30 (fun _ => BackendResult.ok ⟨MsgContent.str "\x7b\x7d"⟩)
        "친구가 날 밀쳤다" []).1.verdict =
      "모델 응답을 파싱하지 못했습니다. 잠시 후 다시 시도해 주세요." ∧
    (judge_story true "gpt-4o" 30 (fun _ => BackendResult.ok ⟨MsgContent.str "\x7b\x7d"⟩)
        "친구가 날 밀쳤다" []).1 ≠
      normalize_response [] (py_strip "친구가 날 밀쳤다") := by
  refine ⟨rfl, rfl, rfl, ?_⟩
  intro h
  have hv : (normalize_response [] (py_strip "친구가 날 밀쳤다")).verdict =
      "모델 응답을 파싱하지 못했습니다. 잠시 후 다시 시도해 주세요." := by
    rw [← h]
    rfl
  exact absurd hv (by decide)

/-- C1 (amended): for every backend response whose text yields a recoverable
*non-empty* JSON object, the attempt is a successful parse — no retry, one
call, and the orchestrator returns the Judgment normalized from that
object; when the recovered value is `None` or the empty object, the retry
is issued (a second call attempt is made). -/
theorem c1_success_on_truthy_object :
    (∀ (b : Backend) (m p : String) (t : ℚ) (msg : ChatMessage) (o : JObj),
      b 0 = BackendResult.ok msg →
      recover_json (extract_message_text msg) = some o → o ≠ [] →
      request_json_data b m p t =
        ((some o, none), [build_completion_kwargs m p t false])) ∧
    (∀ (b : Backend) (m : String) (t : ℚ) (story : String) (ctx : List String)
        (msg : ChatMessage) (o : JObj),
      b 0 = BackendResult.ok msg →
      recover_json (extract_message_text msg) = some o → o ≠ [] →
      py_strip story ≠ "" →
      judge_story true m t b story ctx =
        (normalize_response o (py_strip story),
         [build_completion_kwargs m (build_user_prompt (py_strip story) ctx) t false])) ∧
    (∀ (b : Backend) (m p : String) (t : ℚ) (msg0 : ChatMessage),
      b 0 = BackendResult.ok msg0 →
      jobj_truthy (recover_json (extract_message_text msg0)) = false →
      (request_json_data b m p t).2.length = 2) := by
  refine ⟨?_, ?_, ?_⟩
  · intro b m p t msg o h0 hr ho
    exact request_json_data_primary_truthy b m p t msg o h0 hr ho
  · intro b m t story ctx msg o h0 hr ho hs
    exact judge_story_of_truthy_request m t b story ctx o _ hs
      (request_json_data_primary_truthy b m _ t msg o h0 hr ho) ho
  · intro b m p t msg0 h0 hf
    unfold request_json_data
    rw [h0]
    simp only [hf, Bool.false_eq_true, if_false]
    cases h1 : b 1 with
    | raises => rfl
    | ok msg1 =>
      cases ht : jobj_truthy (recover_json (extract_message_text msg1)) <;> simp [ht]

/-- Witness for C1 (amended): a backend whose first answer is a non-empty
JSON object; the orchestrator normalizes it in a single call. -/
theorem c1_success_on_truthy_object_witness :
    judge_story true "gpt-4o" 30
        (fun _ => BackendResult.ok ⟨MsgContent.str "\x7b\"verdict\":\"화해 권고\"\x7d"⟩)
        "친구가 날 밀쳤다" [] =
      (normalize_response [("verdict", Json.str "화해 권고")] (py_strip "친구가 날 밀쳤다"),
       [build_completion_kwargs "gpt-4o"
          (build_user_prompt (py_strip "친구가 날 밀쳤다") []) 30 false]) :=
  c1_success_on_truthy_object.2.1
    (fun _ => BackendResult.ok ⟨MsgContent.str "\x7b\"verdict\":\"화해 권고\"\x7d"⟩)
    "gpt-4o" 30 "친구가 날 밀쳤다" [] ⟨MsgContent.str "\x7b\"verdict\":\"화해 권고\"\x7d"⟩
    [("verdict", Json.str "화해 권고")] rfl rfl (List.cons_ne_nil _ _) (by decide)

/-- Counterexample for C3: first call returns non-JSON text, the retry
returns `\x7b\x7d` — a parseable JSON object — yet the orchestrator does not
return a result normalized from the retry: it falls back with the
parse-failure verdict (the empty dict recovered on retry is falsy), so the
claim's "if the retry parses, its normalized result is returned" fails. -/
theorem c3_counterexample :
    recover_json "\x7b\x7d" = some [] ∧
    (judge_story true "gpt-4o" 30
        (fun n => if n = 0 then BackendResult.ok ⟨MsgContent.str "not-json"⟩
          else BackendResult.ok ⟨MsgContent.str "\x7b\x7d"⟩)
        "사연입니다" []).2.length = 2 ∧
    (judge_story true "gpt-4o" 30
        (fun n => if n = 0 then BackendResult.ok ⟨MsgContent.str "not-json"⟩
          else BackendResult.ok ⟨MsgContent.str "\x7b\x7d"⟩)
        "사연입니다" []).1.verdict =
      "모델 응답을 파싱하지 못했습니다. 잠시 후 다시 시도해 주세요." ∧
    (judge_story true "gpt-4o" 30
        (fun n => if n = 0 then BackendResult.ok ⟨MsgContent.str "not-json"⟩
          else BackendResult.ok ⟨MsgContent.str "\x7b\x7d"⟩)
        "사연입니다" []).1 ≠ normalize_response [] (py_strip "사연입니다") := by
  refine ⟨rfl, rfl, rfl, ?_⟩
  intro h
  have hv : (normalize_response [] (py_strip "사연입니다")).verdict =
      "모델 응답을 파싱하지 못했습니다. 잠시 후 다시 시도해 주세요." := by
    rw [← h]
    rfl
  exact absurd hv (by decide)

/-- C3 (amended): when the first call succeeds but yields no truthy
recoverable object, exactly one retry is issued with the same model; the
first request carries the structured-output response format and the retry
does not; and when the retry yields a *non-empty* recoverable object its
normalized result is returned — in exactly two backend calls, never a
third attempt or another model. -/
theorem c3_retry_policy :
    (∀ (m p : String) (t : ℚ),
      (build_completion_kwargs m p t false).response_format_json_object = true ∧
      (build_completion_kwargs m p t true).response_format_json_object = false ∧
      (build_completion_kwargs m p t false).model = m ∧
      (build_completion_kwargs m p t true).model = m) ∧
    (∀ (b : Backend) (m p : String) (t : ℚ) (msg0 msg1 : ChatMessage) (o : JObj),
      b 0 = BackendResult.ok msg0 →
      jobj_truthy (recover_json (extract_message_text msg0)) = false →
      b 1 = BackendResult.ok msg1 →
      recover_json (extract_message_text msg1) = some o → o ≠ [] →
      request_json_data b m p t =
        ((some o, none),
         [build_completion_kwargs m p t false, build_completion_kwargs m p t true])) ∧
    (∀ (b : Backend) (m : String) (t : ℚ) (story : String) (ctx : List String)
        (msg0 msg1 : ChatMessage) (o : JObj),
      b 0 = BackendResult.ok msg0 →
      jobj_truthy (recover_json (extract_message_text msg0)) = false →
      b 1 = BackendResult.ok msg1 →
      recover_json (extract_message_text msg1) = some o → o ≠ [] →
      py_strip story ≠ "" →
      judge_story true m t b story ctx =
        (normalize_response o (py_strip story),
         [build_completion_kwargs m (build_user_prompt (py_strip story) ctx) t false,
          build_completion_kwargs m (build_user_prompt (py_strip story) ctx) t true])) := by
  refine ⟨?_, ?_, ?_⟩
  · intro m p t
    exact ⟨rfl, rfl, rfl, rfl⟩
  · intro b m p t msg0 msg1 o h0 hf h1 hr ho
    exact request_json_data_retry_truthy b m p t msg0 msg1 o h0 hf h1 hr ho
  · intro b m t story ctx msg0 msg1 o h0 hf h1 hr ho hs
    exact judge_story_of_truthy_request m t b story ctx o _ hs
      (request_json_data_retry_truthy b m _ t msg0 msg1 o h0 hf h1 hr ho) ho

/-- Witness for C3 (amended): non-JSON first answer, valid JSON second
answer — the normalized second result comes back from exactly two calls,
the first with structured-output mode and the second without. -/
theorem c3_retry_policy_witness :
    judge_story true "gpt-4o" 30
        (fun n => if n = 0 then BackendResult.ok ⟨MsgContent.str "not-json"⟩
          else BackendResult.ok ⟨MsgContent.str "\x7b\"verdict\":\"v\"\x7d"⟩)
        "사연입니다" [] =
      (normalize_response [("verdict", Json.str "v")] (py_strip "사연입니다"),
       [build_completion_kwargs "gpt-4o" (build_user_prompt (py_strip "사연입니다") []) 30 false,
        build_completion_kwargs "gpt-4o" (build_user_prompt (py_strip "사연입니다") []) 30 true]) :=
  c3_retry_policy.2.2
    (fun n => if n = 0 then BackendResult.ok ⟨MsgContent.str "not-json"⟩
      else BackendResult.ok ⟨MsgContent.str "\x7b\"verdict\":\"v\"\x7d"⟩)
    "gpt-4o" 30 "사연입니다" [] ⟨MsgContent.str "not-json"⟩
    ⟨MsgContent.str "\x7b\"verdict\":\"v\"\x7d"⟩ [("verdict", Json.str "v")]
    rfl rfl rfl rfl (List.cons_ne_nil _ _) (by decide)

/-- C4: a backend exception at either call site degrades to the
call-failure fallback verdict; a throw at the primary call site causes no
retry — with a backend that throws on the first call, exactly one call
attempt is made. -/
theorem c4_call_error_no_retry :
    (∀ (b : Backend) (m : String) (t : ℚ) (story : String) (ctx : List String),
      b 0 = BackendResult.raises →
      py_strip story ≠ "" →
      judge_story true m t b story ctx =
        (fallback_response (py_strip story)
          (some "모델 호출에 실패했습니다. 잠시 후 다시 시도해 주세요."),
         [build_completion_kwargs m (build_user_prompt (py_strip story) ctx) t false])) ∧
    (∀ (b : Backend) (m : String) (t : ℚ) (story : String) (ctx : List String)
        (msg0 : ChatMessage),
      b 0 = BackendResult.ok msg0 →
      jobj_truthy (recover_json (extract_message_text msg0)) = false →
      b 1 = BackendResult.raises →
      py_strip story ≠ "" →
      judge_story true m t b story ctx =
        (fallback_response (py_strip story)
          (some "모델 호출에 실패했습니다. 잠시 후 다시 시도해 주세요."),
         [build_completion_kwargs m (build_user_prompt (py_strip story) ctx) t false,
          build_completion_kwargs m (build_user_prompt (py_strip story) ctx) t true])) := by
  constructor
  · intro b m t story ctx h0 hs
    exact judge_story_of_call_error m t b story ctx _ hs
      (request_json_data_primary_raises b m _ t h0)
  · intro b m t story ctx msg0 h0 hf h1 hs
    exact judge_story_of_call_error m t b story ctx _ hs
      (request_json_data_retry_raises b m _ t msg0 h0 hf h1)

/-- Witness for C4: an always-throwing backend yields the call-failure
fallback after a single call attempt. -/
theorem c4_call_error_no_retry_witness :
    judge_story true "gpt-4o" 30 (fun _ => BackendResult.raises) "친구가 날 밀쳤다" [] =
      (fallback_response (py_strip "친구가 날 밀쳤다")
        (some "모델 호출에 실패했습니다. 잠시 후 다시 시도해 주세요."),
       [build_completion_kwargs "gpt-4o"
          (build_user_prompt (py_strip "친구가 날 밀쳤다") []) 30 false]) :=
  c4_call_error_no_retry.1 (fun _ => BackendResult.raises) "gpt-4o" 30
    "친구가 날 밀쳤다" [] rfl (by decide)

/-- Counterexample for C5: after a login created the user (so the row is
`id 0, createdAt 0, lastLoginAt 0`), the judge endpoint's upsert at time 5
leaves the record completely untouched — `lastLoginAt` stays 0 instead of
being refreshed on this subsequent sight of the udid. -/
theorem c5_counterexample :
    (login ⟨[], 0⟩ 0 "user-1234").2 = ⟨[⟨0, "user-1234", 0, 0⟩], 1⟩ ∧
    upsert_user ⟨[⟨0, "user-1234", 0, 0⟩], 1⟩ 5 "user-1234" =
      ⟨[⟨0, "user-1234", 0, 0⟩], 1⟩ ∧
    find_user (upsert_user ⟨[⟨0, "user-1234", 0, 0⟩], 1⟩ 5 "user-1234") "user-1234" =
      some ⟨0, "user-1234", 0, 0⟩ ∧
    (0 : Nat) ≠ 5 := by
  exact ⟨rfl, rfl, rfl, by decide⟩

/-- C5 (amended): the login endpoint creates the record with
`createdAt = lastLoginAt` on the first sight of a udid and, on a
subsequent sight, keeps the same id and createdAt while refreshing
`lastLoginAt`; the judge endpoint's upsert also creates with
`createdAt = lastLoginAt` on first sight, but on a subsequent sight it
leaves the stored record unchanged (it does not refresh `lastLoginAt`). -/
theorem c5_upsert_behavior :
    (∀ (db : UserDB) (now : Nat) (udid_raw : String),
      find_user db (py_strip udid_raw) = none →
      login db now udid_raw =
        (⟨db.next_id, py_strip udid_raw, now, now⟩,
         ⟨db.rows ++ [⟨db.next_id, py_strip udid_raw, now, now⟩], db.next_id + 1⟩)) ∧
    (∀ (db : UserDB) (t1 t2 : Nat) (udid_raw : String),
      find_user db (py_strip udid_raw) = none →
      (login (login db t1 udid_raw).2 t2 udid_raw).1 =
        ⟨db.next_id, py_strip udid_raw, t1, t2⟩) ∧
    (∀ (db : UserDB) (now : Nat) (udid : String),
      find_user db udid = none →
      upsert_user db now udid =
        ⟨db.rows ++ [⟨db.next_id, udid, now, now⟩], db.next_id + 1⟩) ∧
    (∀ (db : UserDB) (now : Nat) (udid : String) (u : UserRec),
      find_user db udid = some u → upsert_user db now udid = db) := by
  refine ⟨?_, ?_, ?_, ?_⟩
  · intro db now udid_raw h
    unfold login
    rw [h]
  · intro db t1 t2 udid_raw h
    unfold login
    rw [h]
    have hfind :
        find_user ⟨db.rows ++ [⟨db.next_id, py_strip udid_raw, t1, t1⟩], db.next_id + 1⟩
          (py_strip udid_raw) = some ⟨db.next_id, py_strip udid_raw, t1, t1⟩ := by
      unfold find_user at h ⊢
      simp [List.find?_append, h]
    rw [hfind]
  · intro db now udid h
    unfold upsert_user
    rw [h]
  · intro db now udid u h
    unfold upsert_user
    rw [h]

/-- Witness for C5 (amended): a fresh udid logged in at tick 1 and again at
tick 5 keeps id 0 and createdAt 1 while lastLoginAt becomes 5; the judge
upsert leaves an existing row untouched. -/
theorem c5_upsert_behavior_witness :
    (login (login ⟨[], 0⟩ 1 "device-001").2 5 "device-001").1 = ⟨0, "device-001", 1, 5⟩ ∧
    upsert_user ⟨[⟨7, "device-002", 2, 3⟩], 8⟩ 9 "device-002" =
      ⟨[⟨7, "device-002", 2, 3⟩], 8⟩ :=
  ⟨c5_upsert_behavior.2.1 ⟨[], 0⟩ 1 5 "device-001" rfl,
   c5_upsert_behavior.2.2.2 ⟨[⟨7, "device-002", 2, 3⟩], 8⟩ 9 "device-002"
     ⟨7, "device-002", 2, 3⟩ rfl⟩

/-- Replace a file's close behaviour, leaving every field the validator
reads untouched. -/
def set_close (b : Bool) (f : UFile) : UFile :=
  ⟨f.filename, f.content_type, f.read, b⟩

theorem ev_loop_set_close (b : Bool) (idx : Nat) (files : List UFile) :
    ev_loop idx (files.map (set_close b)) = ev_loop idx files := by
  induction files generalizing idx with
  | nil => rfl
  | cons f rest ih =>
    simp only [List.map_cons, ev_loop, set_close]
    rw [ih]

/-- Counterexample for C9: with four files the too-many-files rejection is
raised before the `try`/`finally` guard is installed, so no close is
attempted — the close-attempt trace is empty rather than covering all four
files. -/
theorem c9_counterexample :
    build_evidence_context
        [⟨some "a.jpg", none, ReadOutcome.ok 1, true⟩,
         ⟨some "b.jpg", none, ReadOutcome.ok 1, true⟩,
         ⟨some "c.jpg", none, ReadOutcome.ok 1, true⟩,
         ⟨some "d.jpg", none, ReadOutcome.ok 1, true⟩] =
      (EvOutcome.validation_error "증거 파일은 최대 3개까지 업로드할 수 있습니다.", []) ∧
    ([] : List Nat) ≠ List.range 4 := by
  exact ⟨rfl, by decide⟩

/-- C9 (amended): whenever the file count is within the limit — so the
`try`/`finally` is entered — every file's close is attempted on every exit
path (success, each per-file validation failure, or an unexpected read
exception); the too-many-files rejection alone precedes the guard and
closes nothing; and the outcome and close trace never depend on whether
the closes themselves raise, because close failures are swallowed. -/
theorem c9_close_discipline (files : List UFile) :
    (files.length ≤ EVIDENCE_MAX_FILES →
      (build_evidence_context files).2 = List.range files.length) ∧
    (files.length > EVIDENCE_MAX_FILES →
      build_evidence_context files =
        (EvOutcome.validation_error "증거 파일은 최대 3개까지 업로드할 수 있습니다.", [])) ∧
    (∀ b : Bool, build_evidence_context (files.map (set_close b)) =
      build_evidence_context files) := by
  refine ⟨?_, ?_, ?_⟩
  · intro h
    unfold build_evidence_context
    rw [if_neg (by omega)]
  · intro h
    unfold build_evidence_context
    rw [if_pos h]
    rfl
  · intro b
    unfold build_evidence_context
    rw [List.length_map, ev_loop_set_close]

/-- Witness for C9 (amended): two files, one of which fails validation —
the close-attempt trace still covers both files, and flipping the
close-raises flags changes nothing. -/
theorem c9_close_discipline_witness :
    (build_evidence_context
        [⟨some "a.jpg", none, ReadOutcome.ok 1, true⟩,
         ⟨some "b.exe", none, ReadOutcome.ok 1, true⟩]).2 = List.range 2 ∧
    build_evidence_context
        ([⟨some "a.jpg", none, ReadOutcome.ok 1, false⟩].map (set_close true)) =
      build_evidence_context [⟨some "a.jpg", none, ReadOutcome.ok 1, false⟩] :=
  ⟨(c9_close_discipline
      [⟨some "a.jpg", none, ReadOutcome.ok 1, true⟩,
       ⟨some "b.exe", none, ReadOutcome.ok 1, true⟩]).1 (by decide),
   (c9_close_discipline [⟨some "a.jpg", none, ReadOutcome.ok 1, false⟩]).2.2 true⟩

/-- A declared filename with nothing usable in it: absent, whitespace-only
(including empty), or ending in a path separator. -/
def bad_name (fn : Option String) : Prop :=
  fn = none ∨
  (∃ s, fn = some s ∧ s.toList.all is_py_space = true) ∨
  (∃ s, fn = some s ∧ s.toList.getLast? = some '/') ∨
  (∃ s, fn = some s ∧ s.toList.getLast? = some '\\')

theorem replace_bslash_append (ys zs : List Char) :
    replace_bslash (ys ++ zs) = replace_bslash ys ++ replace_bslash zs := by
  unfold replace_bslash
  rw [List.map_append]

theorem py_strip_list_eq_nil_of_all_space (cs : List Char)
    (h : cs.all is_py_space = true) : py_strip_list (replace_bslash cs) = [] := by
  have hall : ∀ c ∈ replace_bslash cs, is_py_space c = true := by
    intro c hc
    unfold replace_bslash at hc
    obtain ⟨c0, hc0, rfl⟩ := List.mem_map.mp hc
    have h0 : is_py_space c0 = true := by
      rw [List.all_eq_true] at h
      exact h c0 hc0
    by_cases hb : c0 == '\\'
    · have hc0' : c0 = '\\' := eq_of_beq hb
      rw [hc0'] at h0
      exact absurd h0 (by decide)
    · simp only [hb, if_false, Bool.false_eq_true]
      exact h0
  have hin : (replace_bslash cs).dropWhile is_py_space = [] :=
    List.dropWhile_eq_nil_iff.mpr (by simpa using hall)
  unfold py_strip_list
  rw [hin]
  rfl

theorem py_strip_list_concat_slash (cs : List Char) (h : cs.getLast? = some '/') :
    ∃ ws, py_strip_list cs = ws ++ ['/'] := by
  obtain ⟨zs, rfl⟩ := List.getLast?_eq_some_iff.mp h
  have hd : ∃ ws, (zs ++ ['/']).dropWhile is_py_space = ws ++ ['/'] := by
    rw [List.dropWhile_append]
    by_cases he : (zs.dropWhile is_py_space).isEmpty
    · rw [if_pos he]
      exact ⟨[], by rw [List.dropWhile_cons_of_neg (by decide)]; rfl⟩
    · rw [if_neg he]
      exact ⟨zs.dropWhile is_py_space, rfl⟩
  obtain ⟨ws, hw⟩ := hd
  refine ⟨ws, ?_⟩
  unfold py_strip_list
  rw [hw, List.reverse_append]
  show ((('/' :: ws.reverse) : List Char).dropWhile is_py_space).reverse = ws ++ ['/']
  rw [List.dropWhile_cons_of_neg (by decide)]
  simp

theorem last_component_concat_slash (ws : List Char) :
    last_component (ws ++ ['/']) = [] := by
  unfold last_component
  rw [List.reverse_append]
  show ((('/' :: ws.reverse) : List Char).takeWhile (fun c => !(c == '/'))).reverse = []
  rw [List.takeWhile_cons_of_neg (by decide)]
  rfl

theorem sanitize_unnamed_of_bad_name (fn : Option String) (h : bad_name fn) :
    sanitize_filename fn = "unnamed" := by
  rcases h with rfl | ⟨s, rfl, hs⟩ | ⟨s, rfl, hs⟩ | ⟨s, rfl, hs⟩
  · rfl
  · unfold sanitize_filename
    rw [Option.getD_some, py_strip_list_eq_nil_of_all_space s.toList hs]
    rfl
  · have h1 : (replace_bslash s.toList).getLast? = some '/' := by
      obtain ⟨ys, hy⟩ := List.getLast?_eq_some_iff.mp hs
      rw [hy, replace_bslash_append]
      rw [List.getLast?_append]
      rfl
    obtain ⟨ws, hw⟩ := py_strip_list_concat_slash _ h1
    unfold sanitize_filename
    rw [Option.getD_some, hw, last_component_concat_slash]
    simp
  · have h1 : (replace_bslash s.toList).getLast? = some '/' := by
      obtain ⟨ys, hy⟩ := List.getLast?_eq_some_iff.mp hs
      rw [hy, replace_bslash_append]
      rw [List.getLast?_append]
      rfl
    obtain ⟨ws, hw⟩ := py_strip_list_concat_slash _ h1
    unfold sanitize_filename
    rw [Option.getD_some, hw, last_component_concat_slash]
    simp

theorem ev_loop_rejects_bad_name (f : UFile) (rest : List UFile) (idx : Nat)
    (h : bad_name f.filename) :
    ev_loop idx (f :: rest) =
      EvOutcome.validation_error "지원하지 않는 파일 형식입니다: unnamed" := by
  unfold ev_loop
  rw [sanitize_unnamed_of_bad_name f.filename h]
  rw [if_pos (by decide)]
  rfl

theorem ev_loop_ok_allowed (files : List UFile) :
    ∀ (idx : Nat) (lines : List String), ev_loop idx files = EvOutcome.ok lines →
      ∀ f ∈ files,
        extract_extension (sanitize_filename f.filename) ∈ ALLOWED_EVIDENCE_EXTENSIONS := by
  induction files with
  | nil =>
    intro idx lines h f hf
    simp at hf
  | cons g rest ih =>
    intro idx lines h f hf
    unfold ev_loop at h
    by_cases hext :
        extract_extension (sanitize_filename g.filename) ∈ ALLOWED_EVIDENCE_EXTENSIONS
    · rcases List.mem_cons.mp hf with rfl | hf2
      · exact hext
      · rw [if_neg (not_not_intro hext)] at h
        split at h
        · cases h
        · rename_i size heq
          by_cases h0 : size = 0
          · rw [if_pos h0] at h
            cases h
          · rw [if_neg h0] at h
            by_cases h1 : size > EVIDENCE_MAX_FILE_BYTES
            · rw [if_pos h1] at h
              cases h
            · rw [if_neg h1] at h
              cases hrec : ev_loop (idx + 1) rest with
              | ok lines2 => exact ih (idx + 1) lines2 hrec f hf2
              | validation_error m2 =>
                rw [hrec] at h
                cases h
              | unexpected_error =>
                rw [hrec] at h
                cases h
    · rw [if_pos hext] at h
      cases h

/-- C10: a file whose declared name is absent, whitespace-only, or ends in
a path separator sanitizes to `unnamed`, whose derived extension is empty
and therefore not an allowed evidence extension; when such a file is
reached by the validation loop it is rejected with the unsupported-format
error naming `unnamed` (before any content-type or size check), and no
successful run of `build_evidence_context` contains such a file. -/
theorem c10_unnamed_rejection :
    (∀ fn, bad_name fn → sanitize_filename fn = "unnamed") ∧
    extract_extension "unnamed" = "" ∧
    "" ∉ ALLOWED_EVIDENCE_EXTENSIONS ∧
    (∀ (f : UFile) (rest : List UFile) (idx : Nat), bad_name f.filename →
      ev_loop idx (f :: rest) =
        EvOutcome.validation_error "지원하지 않는 파일 형식입니다: unnamed") ∧
    (∀ (files : List UFile) (lines : List String) (closed : List Nat),
      build_evidence_context files = (EvOutcome.ok lines, closed) →
      ∀ f ∈ files, ¬ bad_name f.filename) := by
  refine ⟨sanitize_unnamed_of_bad_name, rfl, by decide, ev_loop_rejects_bad_name, ?_⟩
  intro files lines closed h f hf hbad
  unfold build_evidence_context at h
  split_ifs at h with hlen
  · simp at h
  · have h1 : ev_loop 1 files = EvOutcome.ok lines := congrArg Prod.fst h
    have h2 := ev_loop_ok_allowed files 1 lines h1 f hf
    rw [sanitize_unnamed_of_bad_name f.filename hbad] at h2
    exact absurd h2 (by decide)

/-- Witness for C10: a whitespace-only filename, one ending in a
separator, and an absent one are all rejected as `unnamed`, regardless of
content type and size. -/
theorem c10_unnamed_rejection_witness :
    sanitize_filename (some "   ") = "unnamed" ∧
    sanitize_filename (some "evidence\\") = "unnamed" ∧
    ev_loop 1 [⟨none, some "image/png", ReadOutcome.ok 5, false⟩] =
      EvOutcome.validation_error "지원하지 않는 파일 형식입니다: unnamed" := by
  refine ⟨?_, ?_, ?_⟩
  · exact c10_unnamed_rejection.1 (some "   ")
      (Or.inr (Or.inl ⟨"   ", rfl, by decide⟩))
  · exact c10_unnamed_rejection.1 (some "evidence\\")
      (Or.inr (Or.inr (Or.inr ⟨"evidence\\", rfl, by decide⟩)))
  · exact c10_unnamed_rejection.2.2.2.1
      ⟨none, some "image/png", ReadOutcome.ok 5, false⟩ [] 1 (Or.inl rfl)
